import Mathlib

/-!
Verification development for the raahi-assistant request-orchestration core.

The Python source is shallowly embedded:
  * dictionaries that only matter through `.get` are structures of `Option`
    fields (a `none` field covers both "key absent" and "key present with
    value None", exactly the cases `.get` conflates);
  * Python dict insertion order is modelled by association lists where an
    overwrite keeps the original position of the key;
  * fallible collaborator calls are oracle values supplied in an
    environment record, and exceptions are `Except` errors;
  * background-task scheduling and search invocations are recorded as
    effect logs in the result of the dispatcher.
-/

namespace Raahi

/-! ## Merge Engine (`app/utils/merge_utils.py`, `merge_and_deduplicate`) -/

/-- A Python value usable as an `id` field.  `pyNone` is the JSON/Python
`None`; integers and strings cover the id payloads the collections use.
Truthiness of each shape matches Python. -/
inductive PyId where
  | pyNone
  | pyInt (n : Int)
  | pyStr (s : String)
deriving DecidableEq, Repr

/-- Python truthiness of an id value: `None`, `0` and `""` are falsy. -/
def PyId.truthy : PyId → Bool
  | .pyNone  => false
  | .pyInt n => n != 0
  | .pyStr s => s != ""

/-- One document of a search batch: the optional `id` field (`none` when the
key is absent, so `item.get("id")` returns Python `None`) and an abstract
payload standing for all remaining fields of the dict. -/
structure Item where
  id : Option PyId
  payload : Nat
deriving DecidableEq, Repr

/-- The id under which `merge_and_deduplicate` keeps an item: present and
truthy, otherwise the item is skipped. -/
def Item.keptId (it : Item) : Option PyId :=
  match it.id with
  | some v => if v.truthy then some v else none
  | none => none

/-- One element of the outer `results_lists` argument: either an actual list
of documents or a non-list value, which the `isinstance` safety check skips. -/
inductive BatchVal where
  | list (items : List Item)
  | notAList
deriving DecidableEq, Repr

/-- The documents contributed by one outer element (a non-list contributes
nothing, mirroring the `continue`). -/
def batchItems : BatchVal → List Item
  | .list l => l
  | .notAList => []

/-- `id_map[item_id] = item` on a Python dict: overwriting an existing key
keeps its original position, a new key is appended at the end. -/
def dictInsert : List (PyId × Item) → PyId → Item → List (PyId × Item)
  | [], k, v => [(k, v)]
  | p :: rest, k, v => if p.1 = k then (k, v) :: rest else p :: dictInsert rest k v

/-- The loop body of `merge_and_deduplicate`: items with a truthy id are
inserted under that id, all other items are skipped. -/
def mergeStep (m : List (PyId × Item)) (it : Item) : List (PyId × Item) :=
  match it.id with
  | some v => if v.truthy then dictInsert m v it else m
  | none => m

/-- `merge_and_deduplicate(results_lists)` from `merge_utils.py`: fold every
list-shaped batch through `mergeStep` and return `list(id_map.values())`. -/
def merge_and_deduplicate (results_lists : List BatchVal) : List Item :=
  (results_lists.foldl
    (fun m b =>
      match b with
      | .notAList => m
      | .list items => items.foldl mergeStep m)
    []).map Prod.snd

/-- All documents of the input, batches taken in call order, non-list
elements contributing nothing. -/
def inputRecords (rls : List BatchVal) : List Item :=
  (rls.map batchItems).flatten

/-- Lookup in the accumulator dict. -/
def pyLookup (m : List (PyId × Item)) (v : PyId) : Option Item :=
  (m.find? (fun p => decide (p.1 = v))).map Prod.snd

/-- The last record of a document stream that `merge_and_deduplicate` keeps
under id `v`. -/
def lastWithId (items : List Item) (v : PyId) : Option Item :=
  (items.filter (fun it => decide (it.keptId = some v))).getLast?

/-! ## Duty normalization (`merge_utils.py`, `normalize_*`, `combine_trips_and_leads`) -/

/-- A trip document from the trips collection; every field is read through
`.get`, so a `none` covers both an absent key and a `None` value. -/
structure Trip where
  id : Option String
  customerPickupLocationCity : Option String
  customerDropLocationCity : Option String
  customerPickupLocationCoordinates : Option (Int × Int)
  customerDropLocationCoordinates : Option (Int × Int)
  tripType : Option String
  status : Option String
  createdAt : Option Int
deriving DecidableEq, Repr

/-- The value of a lead document under `"from"` or `"to"`: absent (so
`lead.get(key, \x7b\x7d)` yields an empty dict), a dict with an optional
`city`, or a non-dict value, which the `isinstance` check rejects. -/
inductive LeadEnd where
  | absent
  | obj (city : Option String)
  | nonDict
deriving DecidableEq, Repr

/-- `info.get("city") if isinstance(info, dict) else None`. -/
def LeadEnd.city : LeadEnd → Option String
  | .absent => none
  | .obj c => c
  | .nonDict => none

/-- A lead document from the leads collection. -/
structure Lead where
  id : Option String
  fromEnd : LeadEnd
  toEnd : LeadEnd
  location : Option (Int × Int)
  fromTxt : Option String
  toTxt : Option String
  status : Option String
  createdAt : Option Int
deriving DecidableEq, Repr

/-- The normalized duty dict; `normalize_trip_to_duty` and
`normalize_lead_to_duty` build dicts with distinct key sets, so the model is
a sum.  Both constructors always carry a `created_at` key (whose value may
still be the Python `None`). -/
inductive Duty where
  | tripDuty (id : Option String) (pickup_city drop_city : Option String)
      (pickup_coordinates drop_coordinates : Option (Int × Int))
      (trip_type status : Option String) (created_at : Option Int)
  | leadDuty (id : Option String) (pickup_city drop_city : Option String)
      (pickup_coordinates : Option (Int × Int))
      (pickup_text drop_text status : Option String) (created_at : Option Int)
deriving DecidableEq, Repr

/-- The always-present `created_at` key of a normalized duty. -/
def Duty.created_at : Duty → Option Int
  | .tripDuty _ _ _ _ _ _ _ c => c
  | .leadDuty _ _ _ _ _ _ _ c => c

/-- `normalize_trip_to_duty` from `merge_utils.py`. -/
def normalize_trip_to_duty (trip : Trip) : Duty :=
  .tripDuty trip.id trip.customerPickupLocationCity trip.customerDropLocationCity
    trip.customerPickupLocationCoordinates trip.customerDropLocationCoordinates
    trip.tripType trip.status trip.createdAt

/-- `normalize_lead_to_duty` from `merge_utils.py`. -/
def normalize_lead_to_duty (lead : Lead) : Duty :=
  .leadDuty lead.id lead.fromEnd.city lead.toEnd.city lead.location
    lead.fromTxt lead.toTxt lead.status lead.createdAt

/-- Python comparison `a < b` on the sort keys: comparing `None` with
anything (itself included) raises `TypeError`, modelled as an error. -/
def pyLt : Option Int → Option Int → Except Unit Bool
  | some a, some b => .ok (decide (a < b))
  | _, _ => .error ()

/-- One step of a stable descending sort with the partial Python
comparison: `x` is placed before the first element strictly below it, so
earlier elements with an equal key stay in front (Python sorts are stable,
and `reverse=True` does not reorder equal elements). -/
def insertDesc (key : Duty → Option Int) (x : Duty) : List Duty → Except Unit (List Duty)
  | [] => .ok [x]
  | y :: ys => do
      let b ← pyLt (key y) (key x)
      if b then
        return x :: y :: ys
      else
        let rest ← insertDesc key x ys
        return y :: rest

/-- `duties.sort(key=..., reverse=True)` with Python semantics: a stable
descending sort that raises `TypeError` as soon as a comparison involves a
`None` key.  Like CPython timsort, every element of a list of length at
least two takes part in at least one comparison, so the sort fails exactly
when such a list holds a `None` key; on all-integer keys it agrees with the
stable descending order. -/
def pySortDesc (key : Duty → Option Int) (l : List Duty) : Except Unit (List Duty) :=
  l.foldlM (fun acc x => insertDesc key x acc) []

/-- `combine_trips_and_leads` from `merge_utils.py`: normalize, concatenate,
then sort by `x.get("created_at", 0)` descending.  The normalized dicts
always contain the `created_at` key, so the `.get` default `0` is dead code
and the key seen by the sort is the stored value, `None` included. -/
def combine_trips_and_leads (trips : List Trip) (leads : List Lead) :
    Except Unit (List Duty) :=
  pySortDesc Duty.created_at
    (trips.map normalize_trip_to_duty ++ leads.map normalize_lead_to_duty)

/-! ## Intent and UI-action enumerations (`app/models/schemas.py`) -/

/-- `IntentType` from `schemas.py`. -/
inductive IntentType where
  | ENTRY | GET_DUTIES | CNG_PUMPS | PARKING | PETROL_PUMPS | NEARBY_DRIVERS
  | TOWING | TOILETS | TAXI_STANDS | AUTO_PARTS | CAR_REPAIR | HOSPITAL
  | POLICE_STATION | END | GENERIC
deriving DecidableEq, Repr

/-- The string value of each intent member. -/
def IntentType.value : IntentType → String
  | .ENTRY => "entry"
  | .GET_DUTIES => "get_duties"
  | .CNG_PUMPS => "cng_pumps"
  | .PARKING => "parking"
  | .PETROL_PUMPS => "petrol_pumps"
  | .NEARBY_DRIVERS => "nearby_drivers"
  | .TOWING => "towing"
  | .TOILETS => "toilets"
  | .TAXI_STANDS => "taxi_stands"
  | .AUTO_PARTS => "auto_parts"
  | .CAR_REPAIR => "car_repair"
  | .HOSPITAL => "hospital"
  | .POLICE_STATION => "police_station"
  | .END => "end"
  | .GENERIC => "generic"

/-- `IntentType(s)`: the enum constructor, `none` when the Python call
raises `ValueError`. -/
def IntentType.ofString? : String → Option IntentType
  | "entry" => some .ENTRY
  | "get_duties" => some .GET_DUTIES
  | "cng_pumps" => some .CNG_PUMPS
  | "parking" => some .PARKING
  | "petrol_pumps" => some .PETROL_PUMPS
  | "nearby_drivers" => some .NEARBY_DRIVERS
  | "towing" => some .TOWING
  | "toilets" => some .TOILETS
  | "taxi_stands" => some .TAXI_STANDS
  | "auto_parts" => some .AUTO_PARTS
  | "car_repair" => some .CAR_REPAIR
  | "hospital" => some .HOSPITAL
  | "police_station" => some .POLICE_STATION
  | "end" => some .END
  | "generic" => some .GENERIC
  | _ => none

/-- `UIAction` from `schemas.py`. -/
inductive UIAction where
  | ENTRY | SHOW_DUTIES_LIST | SHOW_CNG_STATIONS | SHOW_PETROL_STATIONS
  | SHOW_PARKING | SHOW_NEARBY_DRIVERS | SHOW_TOWING | SHOW_TOILETS
  | SHOW_TAXI_STANDS | SHOW_AUTO_PARTS | SHOW_CAR_REPAIR | SHOW_HOSPITAL
  | SHOW_POLICE_STATION | SHOW_MAP | SHOW_END | NONE
deriving DecidableEq, Repr

/-- `UIAction(s)`: the enum constructor, `none` when the Python call raises
`ValueError`. -/
def UIAction.ofString? : String → Option UIAction
  | "entry" => some .ENTRY
  | "show_duties_list" => some .SHOW_DUTIES_LIST
  | "show_cng_stations" => some .SHOW_CNG_STATIONS
  | "show_petrol_stations" => some .SHOW_PETROL_STATIONS
  | "show_parking" => some .SHOW_PARKING
  | "show_nearby_drivers" => some .SHOW_NEARBY_DRIVERS
  | "show_towing" => some .SHOW_TOWING
  | "show_toilets" => some .SHOW_TOILETS
  | "show_taxi_stands" => some .SHOW_TAXI_STANDS
  | "show_auto_parts" => some .SHOW_AUTO_PARTS
  | "show_car_repair" => some .SHOW_CAR_REPAIR
  | "show_hospital" => some .SHOW_HOSPITAL
  | "show_police_station" => some .SHOW_POLICE_STATION
  | "show_map" => some .SHOW_MAP
  | "show_end" => some .SHOW_END
  | "none" => some .NONE
  | _ => none

/-! ## Audio Selection (`app/services/audio_config_service.py`) -/

/-- The hot-reloaded JSON configuration: an ordered mapping from asset key
to URL or JSON null. -/
abbrev AudioConfig : Type := List (String × Option String)

/-- `self._config.get(key)` on the configuration dict: `None` both when the
key is absent and when it is configured null. -/
def configGet (config : AudioConfig) (key : String) : Option String :=
  match config.find? (fun p => p.1 == key) with
  | some p => p.2
  | none => none

/-- `AudioConfigService.get_url(intent, interaction_count)` from
`audio_config_service.py`: at interaction count at least 5 probe the
`<intent>_short` key first, otherwise (and as fallback) the regular key. -/
def get_url (config : AudioConfig) (intent : IntentType)
    (interaction_count : Option Int) : Option String :=
  match interaction_count with
  | some n =>
      if n ≥ 5 then
        match configGet config (intent.value ++ "_short") with
        | some u => some u
        | none => configGet config intent.value
      else configGet config intent.value
  | none => configGet config intent.value

/-- Modelled from the spec: `get_url_direct` is invoked by the dispatcher in
`routes.py` on the keys `find_chip`, `india_only` and `no_duty` but is not
defined by the audio configuration service in `src/`; per §4.6 the
configuration is a plain mapping from asset key to URL-or-null, so a direct
probe is a lookup of the key. -/
def get_url_direct (config : AudioConfig) (key : String) : Option String :=
  configGet config key

/-- Modelled from the spec: the dispatcher passes a third `is_home` argument
that the service method in `src/` does not accept; §4.6 gives the audio
selection the signature `select(intent, interaction_count, is_home)` and an
algorithm keyed on intent and interaction count only, so the flag is
accepted and ignored. -/
def select (config : AudioConfig) (intent : IntentType)
    (interaction_count : Option Int) (_is_home : Bool) : Option String :=
  get_url config intent interaction_count

/-! ## Intent Classifier Adapter (`app/services/gemini_service.py`) -/

/-- The `extracted_params` mapping, of which only the two city fields are
ever read (a missing field and a JSON null both surface as `None`). -/
structure ExtractedParams where
  from_city : Option String
  to_city : Option String
deriving DecidableEq, Repr

/-- `IntentResult` from `schemas.py`; `data` is either `None` or the
single-key dict holding the extracted parameters. -/
structure IntentResult where
  intent : IntentType
  response_text : String
  ui_action : UIAction
  data : Option ExtractedParams
deriving DecidableEq, Repr

/-- The JSON value obtained from the collaborator reply after code-fence
stripping: either not a JSON object (its `.get` raises AttributeError) or an
object with the four optional fields (non-string field values are folded
into the failing enum-constructor case via `ofString?`). -/
inductive ParsedReply where
  | notADict
  | dict (intent ui_action response_text : Option String)
      (extracted_params : Option ExtractedParams)
deriving DecidableEq, Repr

/-- The observable outcome of one collaborator round trip:
`raiseBeforeParse` covers transport/timeout failures of the model call,
`text none` a reply whose JSON decoding fails, and `text (some p)` a decoded
reply. -/
inductive CollabOutcome where
  | raiseBeforeParse
  | text (parsed : Option ParsedReply)
deriving DecidableEq, Repr

/-- The localized fallback of the `json.JSONDecodeError` handler. -/
def parseFailureMsg (preferred_language : String) : String :=
  if preferred_language = "hi" then
    "मैं आपकी मदद करने के लिए यहां हूं। क्या आप फिर से बोल सकते हैं?"
  else "I\x27m here to help. Can you say that again?"

/-- The localized fallback of the generic `except Exception` handler. -/
def techProblemMsg (preferred_language : String) : String :=
  if preferred_language = "hi" then
    "कुछ तकनीकी समस्या है। कृपया थोड़ी देर बाद प्रयास करें।"
  else "There\x27s a technical problem. Please try again later."

/-- `default_responses.get(preferred_language, default_responses["hi"])`:
the stand-in response text when the parsed reply lacks one. -/
def defaultResponseMsg (preferred_language : String) : String :=
  if preferred_language = "hi" then
    "मैं समझ नहीं पाया। क्या आप फिर से बोल सकते हैं?"
  else if preferred_language = "en" then
    "I didn\x27t understand. Can you say that again?"
  else "मैं समझ नहीं पाया। क्या आप फिर से बोल सकते हैं?"

/-- The process-wide session store `self._sessions`, keyed by session id;
the history payload is abstracted. -/
abbrev Sessions (H : Type) : Type := List (String × H)

/-- `self._sessions[session_id] = chat.history` on a Python dict. -/
def sessionsSet {H : Type} (sessions : Sessions H) (sid : String) (h : H) :
    Sessions H :=
  if sessions.any (fun p => p.1 == sid) then
    sessions.map (fun p => if p.1 == sid then (sid, h) else p)
  else sessions ++ [(sid, h)]

/-- `if session_id:` — history is tracked only for a truthy session id. -/
def sessionTracked : Option String → Bool
  | none => false
  | some s => s != ""

/-- The history written on update when the classifier succeeds past JSON
decoding; `newHistory` stands for `chat.history` after the exchange. -/
def updatedSessions {H : Type} (sessions : Sessions H)
    (session_id : Option String) (newHistory : H) : Sessions H :=
  match session_id with
  | some sid => if sid != "" then sessionsSet sessions sid newHistory else sessions
  | none => sessions

/-- `GeminiService.classify_and_respond` from `gemini_service.py`, as a
function of the collaborator outcome: returns the produced `IntentResult`
together with the session store after the call.  Both `except` branches
return normally, so the whole embedding is a total function — no outcome
propagates an exception to the caller. -/
def classify_and_respond {H : Type} (sessions : Sessions H)
    (session_id : Option String) (preferred_language : String)
    (outcome : CollabOutcome) (newHistory : H) :
    IntentResult × Sessions H :=
  match outcome with
  | .raiseBeforeParse =>
      -- transport failure: generic `except Exception` branch, history untouched
      (⟨.GENERIC, techProblemMsg preferred_language, .NONE, none⟩, sessions)
  | .text none =>
      -- `json.loads` raises `JSONDecodeError` before the history update
      (⟨.GENERIC, parseFailureMsg preferred_language, .NONE, none⟩, sessions)
  | .text (some parsed) =>
      -- history is updated right after a successful `json.loads`
      let sessions' := updatedSessions sessions session_id newHistory
      match parsed with
      | .notADict =>
          -- `parsed.get` raises AttributeError -> generic handler
          (⟨.GENERIC, techProblemMsg preferred_language, .NONE, none⟩, sessions')
      | .dict intentStr uiStr respText params =>
          match IntentType.ofString? (intentStr.getD "generic") with
          | none =>
              -- `IntentType(...)` raises ValueError -> generic handler
              (⟨.GENERIC, techProblemMsg preferred_language, .NONE, none⟩, sessions')
          | some intent =>
              match UIAction.ofString? (uiStr.getD "none") with
              | none =>
                  (⟨.GENERIC, techProblemMsg preferred_language, .NONE, none⟩, sessions')
              | some ui =>
                  (⟨intent,
                    respText.getD (defaultResponseMsg preferred_language),
                    ui,
                    some (params.getD ⟨none, none⟩)⟩, sessions')

/-! ## Request Dispatcher (`app/api/routes.py`, `_process_intent`) -/

/-- `AssistantRequest` from `schemas.py`, the fields the dispatcher reads
(`driver_profile` is reduced to the id the analytics events use). -/
structure AssistantRequest where
  text : String
  driver_id : String
  session_id : Option String
  interaction_count : Option Int
  is_home : Bool
  chip_click : Option String
deriving DecidableEq, Repr

/-- Python `str.strip()`: drop leading and trailing whitespace (executable
model over the character list). -/
def pyStrip (s : String) : String :=
  ⟨((s.data.dropWhile Char.isWhitespace).reverse.dropWhile
      Char.isWhitespace).reverse⟩

/-- Truthiness of an optional city string: `if pickup_city:`. -/
def cityTruthy : Option String → Bool
  | none => false
  | some s => s != ""

/-- `not city or (isinstance(city, str) and city.strip() == "")`. -/
def cityEmpty : Option String → Bool
  | none => true
  | some s => s == "" || pyStrip s == ""

/-- One scheduled background `log_search` analytics call. -/
structure LogSearchEvent where
  driver_id : String
  pickup_city : Option String
  drop_city : Option String
  used_geo : Bool
  trips_count : Nat
  leads_count : Nat
deriving DecidableEq, Repr

/-- One search invocation issued against the search collaborator. -/
inductive SearchCall where
  | tripsText (pickup_city drop_city : Option String)
  | leadsText (pickup_city drop_city : Option String)
  | tripsGeo (pickup_coordinates : Int × Int) (drop_city : Option String)
  | leadsGeo (pickup_coordinates : Int × Int) (drop_city : Option String)
deriving DecidableEq, Repr

/-- The oracle outcomes of the four concurrent search tasks: an `error`
models the task raising. -/
structure SearchEnv where
  trips_text : Except Unit (List Item)
  leads_text : Except Unit (List Item)
  trips_geo : Except Unit (List Item)
  leads_geo : Except Unit (List Item)

/-- Index of one of the four search tasks. -/
inductive TaskId where
  | tripsText | leadsText | tripsGeo | leadsGeo
deriving DecidableEq, Repr

/-- The outcome of one task. -/
def SearchEnv.task (se : SearchEnv) : TaskId → Except Unit (List Item)
  | .tripsText => se.trips_text
  | .leadsText => se.leads_text
  | .tripsGeo => se.trips_geo
  | .leadsGeo => se.leads_geo

/-- Replace the outcome of one task. -/
def SearchEnv.setTask (se : SearchEnv) : TaskId → Except Unit (List Item) → SearchEnv
  | .tripsText, r => { se with trips_text := r }
  | .leadsText, r => { se with leads_text := r }
  | .tripsGeo, r => { se with trips_geo := r }
  | .leadsGeo, r => { se with leads_geo := r }

/-- `results[i] if not isinstance(results[i], Exception) else []`. -/
def okOrEmpty : Except Unit (List Item) → List Item
  | .ok l => l
  | .error _ => []

/-- Lines 288-309 of `routes.py`: read the gathered task results in
call-time order, replace a raised task (or an absent geo task) by the empty
batch, and merge each record kind. -/
def gatherResults (hasGeo : Bool) (se : SearchEnv) : List Item × List Item :=
  let trips_text := okOrEmpty se.trips_text
  let leads_text := okOrEmpty se.leads_text
  let trips_geo := if hasGeo then okOrEmpty se.trips_geo else []
  let leads_geo := if hasGeo then okOrEmpty se.leads_geo else []
  (merge_and_deduplicate [.list trips_text, .list trips_geo],
   merge_and_deduplicate [.list leads_text, .list leads_geo])

/-- The search tasks created by lines 258-286 of `routes.py`, in call
order. -/
def buildSearchCalls (pickup_city drop_city : Option String)
    (pickup_coordinates : Option (Int × Int)) : List SearchCall :=
  [.tripsText pickup_city drop_city, .leadsText pickup_city drop_city] ++
    match pickup_coordinates with
    | some cc => [.tripsGeo cc drop_city, .leadsGeo cc drop_city]
    | none => []

/-- Outcome of the pickup-city region gate (lines 161-212). -/
inductive GateOutcome where
  | reject (event : LogSearchEvent)
  | proceed (pickup_coordinates : Option (Int × Int)) (used_geo : Bool)
deriving Repr

/-- The pickup-city check of `_process_intent`: geocoding failure is
fail-open (text search only), a confirmed non-`"IN"` country rejects, and
`used_geo` is set only when coordinates survive the gate. -/
def pickupGate (geocode : String → Option (Int × Int) × Option String)
    (driver_id : String) (pickup_city drop_city : Option String) : GateOutcome :=
  match pickup_city with
  | none => .proceed none false
  | some p =>
    if p = "" then .proceed none false
    else
      let r := geocode p
      match r.2 with
      | none => .proceed none false
      | some c =>
        if c ≠ "IN" then .reject ⟨driver_id, pickup_city, drop_city, false, 0, 0⟩
        else
          match r.1 with
          | some cc => .proceed (some cc) true
          | none => .proceed none false

/-- The drop-city check (lines 215-256): only the country code of the
geocoding result is consulted; `some event` is the rejection. -/
def dropGate (geocode : String → Option (Int × Int) × Option String)
    (driver_id : String) (pickup_city drop_city : Option String)
    (used_geo : Bool) : Option LogSearchEvent :=
  match drop_city with
  | none => none
  | some d =>
    if d = "" then none
    else
      match (geocode d).2 with
      | none => none
      | some c =>
        if c ≠ "IN" then some ⟨driver_id, pickup_city, drop_city, used_geo, 0, 0⟩
        else none

/-- The `data` payload attached to a response. -/
inductive DataPayload where
  | duties (trips leads : List Item)
  | placeholder (key : String)
  | emptyObj
deriving DecidableEq, Repr

/-- The placeholder payloads of the `elif` chain (lines 369-403); `ENTRY`,
`GENERIC` and the duty intent leave `data` as set elsewhere. -/
def dataForIntent : IntentType → Option DataPayload
  | .CNG_PUMPS => some (.placeholder "stations")
  | .PETROL_PUMPS => some (.placeholder "stations")
  | .PARKING => some (.placeholder "stations")
  | .NEARBY_DRIVERS => some (.placeholder "drivers")
  | .TOWING => some (.placeholder "services")
  | .TOILETS => some (.placeholder "locations")
  | .TAXI_STANDS => some (.placeholder "stands")
  | .AUTO_PARTS => some (.placeholder "shops")
  | .CAR_REPAIR => some (.placeholder "shops")
  | .HOSPITAL => some (.placeholder "hospitals")
  | .POLICE_STATION => some (.placeholder "stations")
  | .END => some .emptyObj
  | _ => none

/-- The `query` info attached for the duty intent. -/
structure QueryInfo where
  pickup_city : Option String
  drop_city : Option String
  used_geo : Bool
deriving DecidableEq, Repr

/-- The `counts` info attached for the duty intent. -/
structure CountsInfo where
  trips : Nat
  leads : Nat
deriving DecidableEq, Repr

/-- `AssistantResponse` from `schemas.py`. -/
structure AssistantResponse where
  session_id : String
  success : Bool
  intent : IntentType
  ui_action : UIAction
  response_text : String
  query : Option QueryInfo
  counts : Option CountsInfo
  data : Option DataPayload
  audio_cached : Bool
  cache_key : String
  audio_url : Option String
deriving DecidableEq, Repr

/-- The collaborator outcomes one request consumes. -/
structure Env where
  intent_result : IntentResult
  geocode : String → Option (Int × Int) × Option String
  search : SearchEnv
  config : AudioConfig
  fresh_uuid : String

/-- What one `_process_intent` run produces: the response, the text handed
to TTS, and the effect logs (search invocations in call order, scheduled
analytics events). -/
structure ProcessOutcome where
  response : AssistantResponse
  tts_text : String
  searches : List SearchCall
  analytics : List LogSearchEvent
deriving Repr

/-- `session_id = request.session_id or str(uuid.uuid4())`. -/
def sessionIdOf (req : AssistantRequest) (env : Env) : String :=
  match req.session_id with
  | some s => if s ≠ "" then s else env.fresh_uuid
  | none => env.fresh_uuid

/-- The entry-state response (empty text, and the duty intent with both
cities blank). -/
def entryResponse (config : AudioConfig) (req : AssistantRequest)
    (session_id : String) : AssistantResponse :=
  { session_id := session_id, success := true, intent := .ENTRY,
    ui_action := .ENTRY, response_text := "", query := none, counts := none,
    data := none, audio_cached := false, cache_key := "",
    audio_url := select config .ENTRY req.interaction_count req.is_home }

/-- The region-gate rejection response (lines 195-205 and 246-256). -/
def indiaOnlyResponse (config : AudioConfig) (session_id : String) :
    AssistantResponse :=
  { session_id := session_id, success := true, intent := .END,
    ui_action := .SHOW_END, response_text := "", query := none, counts := none,
    data := none, audio_cached := false, cache_key := "",
    audio_url := get_url_direct config "india_only" }

/-- The zero-results response (lines 346-356). -/
def noDutyResponse (config : AudioConfig) (session_id : String) :
    AssistantResponse :=
  { session_id := session_id, success := true, intent := .END,
    ui_action := .SHOW_END, response_text := "", query := none, counts := none,
    data := none, audio_cached := false, cache_key := "",
    audio_url := get_url_direct config "no_duty" }

/-- The duty-intent continuation of `_process_intent` (lines 150-367 plus
the shared assembly): region gates, fan-out, merge, zero-result handling,
analytics. -/
def dutyFlow (req : AssistantRequest) (env : Env) (session_id : String)
    (intent_result : IntentResult) (extracted_params : ExtractedParams) :
    ProcessOutcome :=
  let pickup_city := extracted_params.from_city
  let drop_city := extracted_params.to_city
  match pickupGate env.geocode req.driver_id pickup_city drop_city with
  | .reject event =>
      { response := indiaOnlyResponse env.config session_id, tts_text := "",
        searches := [], analytics := [event] }
  | .proceed pickup_coordinates used_geo =>
    match dropGate env.geocode req.driver_id pickup_city drop_city used_geo with
    | some event =>
        { response := indiaOnlyResponse env.config session_id, tts_text := "",
          searches := [], analytics := [event] }
    | none =>
      let searches := buildSearchCalls pickup_city drop_city pickup_coordinates
      let results := gatherResults pickup_coordinates.isSome env.search
      let all_trips := results.1
      let all_leads := results.2
      if all_trips.length = 0 ∧ all_leads.length = 0 then
        { response := noDutyResponse env.config session_id, tts_text := "",
          searches := searches,
          analytics := [⟨req.driver_id, pickup_city, drop_city, used_geo, 0, 0⟩] }
      else
        { response :=
            { session_id := session_id, success := true,
              intent := intent_result.intent,
              ui_action := intent_result.ui_action, response_text := "",
              query := some ⟨pickup_city, drop_city, used_geo⟩,
              counts := some ⟨all_trips.length, all_leads.length⟩,
              data := some (.duties all_trips all_leads),
              audio_cached := false, cache_key := "",
              audio_url := select env.config intent_result.intent
                req.interaction_count req.is_home },
          tts_text := intent_result.response_text, searches := searches,
          analytics := [⟨req.driver_id, pickup_city, drop_city, used_geo,
            all_trips.length, all_leads.length⟩] }

/-- `_process_intent` from `routes.py`: chip-click and empty-text early
exits, the both-cities-blank override to the entry state, the duty-intent
continuation, and the placeholder-data fall-through for all other
intents. -/
def _process_intent (req : AssistantRequest) (env : Env) : ProcessOutcome :=
  let session_id := sessionIdOf req env
  if req.chip_click = some "find" then
    { response :=
        { session_id := session_id, success := true, intent := .GENERIC,
          ui_action := .NONE, response_text := "", query := none,
          counts := none, data := none, audio_cached := false, cache_key := "",
          audio_url := get_url_direct env.config "find_chip" },
      tts_text := "", searches := [], analytics := [] }
  else if pyStrip req.text = "" then
    { response := entryResponse env.config req session_id, tts_text := "",
      searches := [], analytics := [] }
  else
    let intent_result := env.intent_result
    let extracted_params := intent_result.data.getD ⟨none, none⟩
    if intent_result.intent = .GET_DUTIES ∧
        cityEmpty extracted_params.from_city = true ∧
        cityEmpty extracted_params.to_city = true then
      { response := entryResponse env.config req session_id, tts_text := "",
        searches := [], analytics := [] }
    else if intent_result.intent = .GET_DUTIES then
      dutyFlow req env session_id intent_result extracted_params
    else
      { response :=
          { session_id := session_id, success := true,
            intent := intent_result.intent,
            ui_action := intent_result.ui_action, response_text := "",
            query := none, counts := none,
            data := dataForIntent intent_result.intent, audio_cached := false,
            cache_key := "",
            audio_url := select env.config intent_result.intent
              req.interaction_count req.is_home },
        tts_text := intent_result.response_text, searches := [],
        analytics := [] }

/-! Invariants of the accumulator: every entry is stored under its own
truthy id, and keys are pairwise distinct. -/

/-- Well-formedness of the accumulator built by `mergeStep`. -/
def MapWF (m : List (PyId × Item)) : Prop :=
  (∀ p ∈ m, p.2.id = some p.1 ∧ p.1.truthy = true) ∧ (m.map Prod.fst).Nodup

theorem mapWF_nil : MapWF [] := by
  constructor
  · intro p hp; cases hp
  · simp

theorem dictInsert_keys_subset {m : List (PyId × Item)} {k : PyId} {v : Item}
    {w : PyId} (hw : w ∈ (dictInsert m k v).map Prod.fst) :
    w ∈ m.map Prod.fst ∨ w = k := by
  induction m with
  | nil =>
    simp only [dictInsert, List.map_cons, List.map_nil, List.mem_singleton] at hw
    exact Or.inr hw
  | cons p rest ih =>
    by_cases hp : p.1 = k
    · simp only [dictInsert, if_pos hp, List.map_cons, List.mem_cons] at hw ⊢
      rcases hw with h | h
      · exact Or.inr h
      · exact Or.inl (Or.inr h)
    · simp only [dictInsert, if_neg hp, List.map_cons, List.mem_cons] at hw ⊢
      rcases hw with h | h
      · exact Or.inl (Or.inl h)
      · rcases ih h with h' | h'
        · exact Or.inl (Or.inr h')
        · exact Or.inr h'

theorem dictInsert_wf {m : List (PyId × Item)} {k : PyId} {v : Item}
    (hm : MapWF m) (hv : v.id = some k) (hk : k.truthy = true) :
    MapWF (dictInsert m k v) := by
  induction m with
  | nil =>
    constructor
    · intro p hp
      rcases List.mem_singleton.1 hp with rfl
      exact ⟨hv, hk⟩
    · simp [dictInsert]
  | cons p rest ih =>
    obtain ⟨hall, hnd⟩ := hm
    simp only [List.map_cons, List.nodup_cons] at hnd
    have hrest : MapWF rest := ⟨fun q hq => hall q (List.mem_cons_of_mem _ hq), hnd.2⟩
    by_cases hp : p.1 = k
    · simp only [dictInsert, if_pos hp]
      constructor
      · intro q hq
        rcases List.mem_cons.1 hq with rfl | h
        · exact ⟨hv, hk⟩
        · exact hall q (List.mem_cons_of_mem _ h)
      · simp only [List.map_cons, List.nodup_cons]
        exact ⟨hp ▸ hnd.1, hnd.2⟩
    · simp only [dictInsert, if_neg hp]
      obtain ⟨hall', hnd'⟩ := ih hrest
      constructor
      · intro q hq
        rcases List.mem_cons.1 hq with rfl | h
        · exact hall q (List.mem_cons_self _ _)
        · exact hall' q h
      · simp only [List.map_cons, List.nodup_cons]
        refine ⟨fun hmem => ?_, hnd'⟩
        rcases dictInsert_keys_subset hmem with h | h
        · exact hnd.1 h
        · exact hp h

theorem mergeStep_wf {m : List (PyId × Item)} {it : Item} (hm : MapWF m) :
    MapWF (mergeStep m it) := by
  unfold mergeStep
  cases hid : it.id with
  | none => exact hm
  | some v =>
    simp only
    by_cases hv : v.truthy = true
    · rw [if_pos hv]
      exact dictInsert_wf hm hid hv
    · rw [if_neg hv]
      exact hm

theorem foldl_mergeStep_wf (items : List Item) {m : List (PyId × Item)}
    (hm : MapWF m) : MapWF (items.foldl mergeStep m) := by
  induction items generalizing m with
  | nil => exact hm
  | cons it rest ih => exact ih (mergeStep_wf hm)

theorem foldl_batches_wf (rls : List BatchVal) {m : List (PyId × Item)}
    (hm : MapWF m) :
    MapWF (rls.foldl
      (fun m b =>
        match b with
        | .notAList => m
        | .list items => items.foldl mergeStep m) m) := by
  induction rls generalizing m with
  | nil => exact hm
  | cons b rest ih =>
    cases b with
    | notAList => exact ih hm
    | list items => exact ih (foldl_mergeStep_wf items hm)

theorem getLast?_cons_or {α : Type} (a : α) (l : List α) :
    (a :: l).getLast? = l.getLast?.or (some a) := by
  cases l with
  | nil => rfl
  | cons b t =>
    rw [List.getLast?_cons_cons]
    cases h : (b :: t).getLast? with
    | none => simp [List.getLast?_cons_cons] at h
    | some x => rfl

theorem pyLookup_dictInsert (m : List (PyId × Item)) (k : PyId) (v : Item)
    (w : PyId) :
    pyLookup (dictInsert m k v) w = if w = k then some v else pyLookup m w := by
  induction m with
  | nil =>
    by_cases hw : w = k
    · simp [dictInsert, pyLookup, hw]
    · simp [dictInsert, pyLookup, hw, Ne.symm hw]
  | cons p rest ih =>
    by_cases hp : p.1 = k
    · simp only [dictInsert, if_pos hp]
      by_cases hw : w = k
      · simp [pyLookup, hw]
      · have hpw : ¬(p.1 = w) := fun h => hw (h ▸ hp ▸ rfl)
        simp only [pyLookup, List.find?_cons]
        rw [show (decide (k = w)) = false by simp [Ne.symm hw],
            show (decide (p.1 = w)) = false by simp [hpw]]
        simp [if_neg hw]
    · simp only [dictInsert, if_neg hp]
      by_cases hpw : p.1 = w
      · have hw : ¬(w = k) := fun h => hp (hpw.trans h)
        simp only [pyLookup, List.find?_cons]
        rw [show (decide (p.1 = w)) = true by simp [hpw]]
        simp [if_neg hw]
      · simp only [pyLookup, List.find?_cons]
        rw [show (decide (p.1 = w)) = false by simp [hpw]]
        simpa [pyLookup] using ih

theorem pyLookup_mergeStep (m : List (PyId × Item)) (it : Item) (v : PyId) :
    pyLookup (mergeStep m it) v =
      if it.keptId = some v then some it else pyLookup m v := by
  unfold mergeStep Item.keptId
  cases hid : it.id with
  | none => simp
  | some w =>
    simp only
    by_cases hw : w.truthy = true
    · rw [if_pos hw, pyLookup_dictInsert]
      by_cases hvw : v = w
      · simp [hvw, hw]
      · rw [if_neg hvw,
            if_neg (show ¬((if w.truthy = true then some w else none) = some v) by
              rw [if_pos hw]
              exact fun h => hvw (Option.some.inj h).symm)]
    · rw [if_neg hw]
      rw [if_neg (show ¬((if w.truthy = true then some w else none) = some v) by
        rw [if_neg hw]; exact fun h => Option.noConfusion h)]

theorem foldl_mergeStep_lookup (items : List Item) (m : List (PyId × Item))
    (v : PyId) :
    pyLookup (items.foldl mergeStep m) v =
      (lastWithId items v).or (pyLookup m v) := by
  induction items generalizing m with
  | nil => simp [lastWithId, Option.or]
  | cons it rest ih =>
    rw [List.foldl_cons, ih]
    unfold lastWithId
    by_cases hk : it.keptId = some v
    · rw [List.filter_cons_of_pos (by simp [hk]), getLast?_cons_or,
          pyLookup_mergeStep, if_pos hk]
      cases h : (List.filter (fun it => decide (it.keptId = some v)) rest).getLast? with
      | none => rfl
      | some x => rfl
    · rw [List.filter_cons_of_neg (by simp [hk]), pyLookup_mergeStep, if_neg hk]

theorem foldl_batches_eq (rls : List BatchVal) (m : List (PyId × Item)) :
    rls.foldl
      (fun m b =>
        match b with
        | .notAList => m
        | .list items => items.foldl mergeStep m) m
    = (inputRecords rls).foldl mergeStep m := by
  induction rls generalizing m with
  | nil => simp [inputRecords]
  | cons b rest ih =>
    cases b with
    | notAList =>
      rw [List.foldl_cons]
      simp only [inputRecords, List.map_cons, List.flatten_cons, batchItems,
        List.nil_append]
      exact ih m
    | list items =>
      rw [List.foldl_cons]
      simp only [inputRecords, List.map_cons, List.flatten_cons, batchItems,
        List.foldl_append]
      exact ih (items.foldl mergeStep m)

theorem pyLookup_eq_none_of_not_mem {m : List (PyId × Item)} {v : PyId}
    (h : v ∉ m.map Prod.fst) : pyLookup m v = none := by
  unfold pyLookup
  rw [List.find?_eq_none.2]
  · rfl
  · intro p hp hdec
    exact h (List.mem_map.2 ⟨p, hp, by simpa using hdec⟩)

theorem filter_values_eq_lookup {m : List (PyId × Item)} (hm : MapWF m)
    (v : PyId) :
    (m.map Prod.snd).filter (fun it => decide (it.id = some v)) =
      (pyLookup m v).toList := by
  induction m with
  | nil => simp [pyLookup]
  | cons p rest ih =>
    obtain ⟨hall, hnd⟩ := hm
    simp only [List.map_cons, List.nodup_cons] at hnd
    have hrest : MapWF rest := ⟨fun q hq => hall q (List.mem_cons_of_mem _ hq), hnd.2⟩
    obtain ⟨hpid, hptruthy⟩ := hall p (List.mem_cons_self _ _)
    by_cases hpv : p.1 = v
    · have hrest_none : pyLookup rest v = none :=
        pyLookup_eq_none_of_not_mem (hpv ▸ hnd.1)
      rw [List.map_cons,
          List.filter_cons_of_pos (by simp [hpid, hpv]),
          ih hrest, hrest_none]
      simp only [pyLookup, List.find?_cons]
      rw [show (decide (p.1 = v)) = true by simp [hpv]]
      rfl
    · rw [List.map_cons,
          List.filter_cons_of_neg (by simp [hpid, hpv]),
          ih hrest]
      simp only [pyLookup, List.find?_cons]
      rw [show (decide (p.1 = v)) = false by simp [hpv]]

/-- Master characterization of the merge: for a truthy id `v`, the records of
the output with id `v` are exactly the last input record (batches in call
order) carrying that id. -/
theorem merge_filter_eq (rls : List BatchVal) (v : PyId)
    (hv : v.truthy = true) :
    (merge_and_deduplicate rls).filter (fun it => decide (it.id = some v)) =
      ((inputRecords rls).filter (fun it => decide (it.id = some v))).getLast?.toList := by
  have hwf : MapWF (rls.foldl
      (fun m b =>
        match b with
        | .notAList => m
        | .list items => items.foldl mergeStep m) []) :=
    foldl_batches_wf rls mapWF_nil
  unfold merge_and_deduplicate
  rw [filter_values_eq_lookup hwf v, foldl_batches_eq, foldl_mergeStep_lookup]
  have hfilter : (inputRecords rls).filter (fun it => decide (it.keptId = some v)) =
      (inputRecords rls).filter (fun it => decide (it.id = some v)) := by
    apply List.filter_congr
    intro it _
    unfold Item.keptId
    cases hid : it.id with
    | none => simp
    | some w =>
      simp only
      by_cases hw : w.truthy = true
      · simp [hw]
      · have : ¬(some w = some v) := fun h => hw ((Option.some.inj h) ▸ hv)
        simp [hw, this]
  rw [show pyLookup [] v = none from rfl]
  unfold lastWithId
  rw [hfilter]
  cases ((inputRecords rls).filter (fun it => decide (it.id = some v))).getLast? with
  | none => rfl
  | some x => rfl

/-- Every record the merge outputs carries a truthy id. -/
theorem merge_ids_truthy (rls : List BatchVal) (it : Item)
    (hmem : it ∈ merge_and_deduplicate rls) :
    ∃ w, it.id = some w ∧ w.truthy = true := by
  have hwf : MapWF (rls.foldl
      (fun m b =>
        match b with
        | .notAList => m
        | .list items => items.foldl mergeStep m) []) :=
    foldl_batches_wf rls mapWF_nil
  unfold merge_and_deduplicate at hmem
  rw [List.mem_map] at hmem
  obtain ⟨p, hp, hpsnd⟩ := hmem
  obtain ⟨hid, htruthy⟩ := hwf.1 p hp
  exact ⟨p.1, hpsnd ▸ hid, htruthy⟩

/-! ## Claim theorems -/

/-- C6: on a collaborator reply whose JSON decoding fails, the classifier
adapter returns the generic-fallback intent with the localized
did-not-understand message, no UI action and no data, and leaves the session
store untouched; on a transport failure, and likewise on a decoded reply
that is not a JSON object, it returns the generic-fallback intent with the
localized technical-problem message.  The embedding is a total function, so
no outcome raises to the caller. -/
theorem C6_classifier_fallbacks {H : Type} (sessions : Sessions H)
    (session_id : Option String) (lang : String) (newHistory : H) :
    (classify_and_respond sessions session_id lang .raiseBeforeParse newHistory =
      (⟨.GENERIC, techProblemMsg lang, .NONE, none⟩, sessions))
    ∧ (classify_and_respond sessions session_id lang (.text none) newHistory =
      (⟨.GENERIC, parseFailureMsg lang, .NONE, none⟩, sessions))
    ∧ (classify_and_respond sessions session_id lang (.text (some .notADict)) newHistory =
      (⟨.GENERIC, techProblemMsg lang, .NONE, none⟩,
        updatedSessions sessions session_id newHistory)) :=
  ⟨rfl, rfl, rfl⟩

/-- C7: with an interaction count of at least 5, `get_url` returns the
configured `<intent>_short` URL exactly when that key is configured
non-null and otherwise falls back to the regular URL; at count 4 or with no
count it returns the regular URL; with neither key configured it returns
`None`. -/
theorem C7_short_asset_threshold (config : AudioConfig) (intent : IntentType)
    (n : Int) (hn : 5 ≤ n) :
    ((∃ u, configGet config (intent.value ++ "_short") = some u) →
      get_url config intent (some n) = configGet config (intent.value ++ "_short"))
    ∧ (configGet config (intent.value ++ "_short") = none →
      get_url config intent (some n) = configGet config intent.value)
    ∧ get_url config intent (some 4) = configGet config intent.value
    ∧ get_url config intent none = configGet config intent.value
    ∧ (∀ ic, configGet config (intent.value ++ "_short") = none →
        configGet config intent.value = none → get_url config intent ic = none) := by
  refine ⟨?_, ?_, ?_, ?_, ?_⟩
  · rintro ⟨u, hu⟩
    simp only [get_url]
    rw [if_pos (show n ≥ 5 from hn), hu]
  · intro hnone
    simp only [get_url]
    rw [if_pos (show n ≥ 5 from hn), hnone]
  · simp only [get_url]
    rw [if_neg (show ¬((4 : Int) ≥ 5) by omega)]
  · rfl
  · intro ic hshort hreg
    cases ic with
    | none => exact hreg
    | some m =>
      simp only [get_url]
      by_cases hm : m ≥ 5
      · rw [if_pos hm, hshort, hreg]
      · rw [if_neg hm, hreg]

/-- C7 witness: a configuration holding both keys at count 5 and 4. -/
theorem C7_witness :
    (5 : Int) ≤ 5 ∧
    (((∃ u, configGet [("entry", some "r"), ("entry_short", some "s")]
        (IntentType.ENTRY.value ++ "_short") = some u) →
      get_url [("entry", some "r"), ("entry_short", some "s")] .ENTRY (some 5) =
        configGet [("entry", some "r"), ("entry_short", some "s")]
          (IntentType.ENTRY.value ++ "_short"))
    ∧ (configGet [("entry", some "r"), ("entry_short", some "s")]
        (IntentType.ENTRY.value ++ "_short") = none →
      get_url [("entry", some "r"), ("entry_short", some "s")] .ENTRY (some 5) =
        configGet [("entry", some "r"), ("entry_short", some "s")]
          IntentType.ENTRY.value)
    ∧ get_url [("entry", some "r"), ("entry_short", some "s")] .ENTRY (some 4) =
        configGet [("entry", some "r"), ("entry_short", some "s")]
          IntentType.ENTRY.value
    ∧ get_url [("entry", some "r"), ("entry_short", some "s")] .ENTRY none =
        configGet [("entry", some "r"), ("entry_short", some "s")]
          IntentType.ENTRY.value
    ∧ (∀ ic, configGet [("entry", some "r"), ("entry_short", some "s")]
          (IntentType.ENTRY.value ++ "_short") = none →
        configGet [("entry", some "r"), ("entry_short", some "s")]
          IntentType.ENTRY.value = none →
        get_url [("entry", some "r"), ("entry_short", some "s")] .ENTRY ic = none)) :=
  ⟨by decide, C7_short_asset_threshold _ .ENTRY 5 (by decide)⟩

/-- C8: evaluation of `combine_trips_and_leads` at a trip list whose second
record has no `createdAt`.  The claim expects the record with the missing
created-at to sort last; the code instead raises `TypeError`, because the
`.get("created_at", 0)` default in the sort key is dead (normalization
always writes the key, as `None` when absent) and Python refuses to order
`None` against an integer.  The second conjunct shows the sort does order
all-integer timestamps descending. -/
theorem C8_combine_sort_typeerror :
    combine_trips_and_leads
      [⟨some "t1", none, none, none, none, none, none, some 100⟩,
       ⟨some "t2", none, none, none, none, none, none, none⟩] [] = .error ()
    ∧ combine_trips_and_leads
      [⟨some "t1", none, none, none, none, none, none, some 100⟩,
       ⟨some "t3", none, none, none, none, none, none, some 200⟩] [] =
      .ok [.tripDuty (some "t3") none none none none none none (some 200),
           .tripDuty (some "t1") none none none none none none (some 100)] :=
  ⟨rfl, rfl⟩

theorem getLast?_append_or {α : Type} (xs ys : List α) :
    (xs ++ ys).getLast? = ys.getLast?.or xs.getLast? := by
  induction xs with
  | nil => simp
  | cons a xs ih =>
    rw [List.cons_append, getLast?_cons_or, ih, getLast?_cons_or,
      Option.or_assoc]

/-- C1: the merge keeps exactly one entry per distinct (truthy) id occurring
in the input — the last record, batches in call order, that carried that
id — and a record lacking an id never reaches the output, while the per-id
characterization shows all other records of its batch are still merged. -/
theorem C1_merge_dedup_per_id (rls : List BatchVal) (v : PyId)
    (hv : v.truthy = true) :
    ((merge_and_deduplicate rls).filter (fun it => decide (it.id = some v)) =
      ((inputRecords rls).filter (fun it => decide (it.id = some v))).getLast?.toList)
    ∧ (∀ it ∈ merge_and_deduplicate rls, it.id.isSome = true) := by
  refine ⟨merge_filter_eq rls v hv, ?_⟩
  intro it hmem
  obtain ⟨w, hw, _⟩ := merge_ids_truthy rls it hmem
  rw [hw]
  rfl

/-- C1 witness: two batches sharing id "1", a record without id in the
first batch, a fresh id "2" in the second. -/
theorem C1_witness :
    PyId.truthy (.pyStr "1") = true ∧
    (((merge_and_deduplicate
        [.list [⟨some (.pyStr "1"), 0⟩, ⟨none, 1⟩],
         .list [⟨some (.pyStr "1"), 2⟩, ⟨some (.pyStr "2"), 3⟩]]).filter
          (fun it => decide (it.id = some (.pyStr "1"))) =
      ((inputRecords
        [.list [⟨some (.pyStr "1"), 0⟩, ⟨none, 1⟩],
         .list [⟨some (.pyStr "1"), 2⟩, ⟨some (.pyStr "2"), 3⟩]]).filter
          (fun it => decide (it.id = some (.pyStr "1")))).getLast?.toList)
    ∧ (∀ it ∈ merge_and_deduplicate
        [.list [⟨some (.pyStr "1"), 0⟩, ⟨none, 1⟩],
         .list [⟨some (.pyStr "1"), 2⟩, ⟨some (.pyStr "2"), 3⟩]],
        it.id.isSome = true)) :=
  ⟨by decide, C1_merge_dedup_per_id _ (.pyStr "1") (by decide)⟩

/-- C9: merging `[B]` and `[B, B]` agree id by id (hence on the id set) and
the survivor is the last record of the last batch holding the id; for two
batches sharing an id, the call order decides the winner: `[A, B]` keeps
the record from `B`, `[B, A]` the one from `A`. -/
theorem C9_merge_idempotence_order (A B : List Item) (v : PyId) (a b : Item)
    (hv : v.truthy = true)
    (ha : (A.filter (fun it => decide (it.id = some v))).getLast? = some a)
    (hb : (B.filter (fun it => decide (it.id = some v))).getLast? = some b) :
    (∀ w, (merge_and_deduplicate [.list B, .list B]).filter
        (fun it => decide (it.id = some w)) =
      (merge_and_deduplicate [.list B]).filter (fun it => decide (it.id = some w)))
    ∧ ((merge_and_deduplicate [.list B, .list B]).filter
        (fun it => decide (it.id = some v)) =
      (B.filter (fun it => decide (it.id = some v))).getLast?.toList)
    ∧ ((merge_and_deduplicate [.list A, .list B]).filter
        (fun it => decide (it.id = some v)) = [b])
    ∧ ((merge_and_deduplicate [.list B, .list A]).filter
        (fun it => decide (it.id = some v)) = [a]) := by
  have hinput2 : ∀ X Y : List Item,
      inputRecords [.list X, .list Y] = X ++ Y := by
    intro X Y
    simp [inputRecords, batchItems]
  have hmain : ∀ (X Y : List Item) (w : PyId), w.truthy = true →
      (merge_and_deduplicate [.list X, .list Y]).filter
        (fun it => decide (it.id = some w)) =
      ((Y.filter (fun it => decide (it.id = some w))).getLast?.or
        ((X.filter (fun it => decide (it.id = some w))).getLast?)).toList := by
    intro X Y w hw
    rw [merge_filter_eq _ _ hw, hinput2, List.filter_append, getLast?_append_or]
  refine ⟨?_, ?_, ?_, ?_⟩
  · intro w
    by_cases hw : w.truthy = true
    · rw [hmain B B w hw]
      have h1 : inputRecords [.list B] = B := by
        simp [inputRecords, batchItems]
      rw [merge_filter_eq _ _ hw, h1]
      cases (B.filter (fun it => decide (it.id = some w))).getLast? with
      | none => rfl
      | some x => rfl
    · have hempty : ∀ rls, (merge_and_deduplicate rls).filter
          (fun it => decide (it.id = some w)) = [] := by
        intro rls
        rw [List.filter_eq_nil_iff]
        intro it hmem
        obtain ⟨u, hu, hut⟩ := merge_ids_truthy rls it hmem
        simp only [hu, decide_eq_true_eq]
        intro h
        exact hw ((Option.some.inj h) ▸ hut)
      rw [hempty, hempty]
  · rw [hmain B B v hv, hb]
    rfl
  · rw [hmain A B v hv, hb]
    rfl
  · rw [hmain B A v hv, ha]
    rfl

/-- C9 witness: batches `A` and `B` sharing id "k" with different
payloads. -/
theorem C9_witness :
    PyId.truthy (.pyStr "k") = true ∧
    (([(⟨some (.pyStr "k"), 1⟩ : Item)].filter
        (fun it => decide (it.id = some (.pyStr "k")))).getLast? =
      some ⟨some (.pyStr "k"), 1⟩) ∧
    (([(⟨some (.pyStr "k"), 2⟩ : Item)].filter
        (fun it => decide (it.id = some (.pyStr "k")))).getLast? =
      some ⟨some (.pyStr "k"), 2⟩) ∧
    ((merge_and_deduplicate
        [.list [⟨some (.pyStr "k"), 1⟩], .list [⟨some (.pyStr "k"), 2⟩]]).filter
        (fun it => decide (it.id = some (.pyStr "k"))) =
      [⟨some (.pyStr "k"), 2⟩]) ∧
    ((merge_and_deduplicate
        [.list [⟨some (.pyStr "k"), 2⟩], .list [⟨some (.pyStr "k"), 1⟩]]).filter
        (fun it => decide (it.id = some (.pyStr "k"))) =
      [⟨some (.pyStr "k"), 1⟩]) :=
  ⟨by decide, by decide, by decide,
    (C9_merge_idempotence_order [⟨some (.pyStr "k"), 1⟩] [⟨some (.pyStr "k"), 2⟩]
      (.pyStr "k") ⟨some (.pyStr "k"), 1⟩ ⟨some (.pyStr "k"), 2⟩
      (by decide) (by decide) (by decide)).2.2.1,
    (C9_merge_idempotence_order [⟨some (.pyStr "k"), 1⟩] [⟨some (.pyStr "k"), 2⟩]
      (.pyStr "k") ⟨some (.pyStr "k"), 1⟩ ⟨some (.pyStr "k"), 2⟩
      (by decide) (by decide) (by decide)).2.2.2⟩

/-- C10: a record whose id field is present but falsy is dropped exactly as
if the field were absent, and a non-list element of the outer argument is
skipped without affecting the merge of the rest. -/
theorem C10_falsy_id_and_nonlist (rls1 rls2 : List BatchVal)
    (pre post : List Item) (it : Item) (v : PyId)
    (hid : it.id = some v) (hv : v.truthy = false) :
    (merge_and_deduplicate (rls1 ++ [.list (pre ++ it :: post)] ++ rls2) =
      merge_and_deduplicate (rls1 ++ [.list (pre ++ { it with id := none } :: post)] ++ rls2))
    ∧ (merge_and_deduplicate (rls1 ++ [.notAList] ++ rls2) =
        merge_and_deduplicate (rls1 ++ rls2)) := by
  have hstep : ∀ m, mergeStep m it = m := by
    intro m
    unfold mergeStep
    rw [hid]
    simp [hv]
  have hstep' : ∀ m, mergeStep m ({ it with id := none }) = m := by
    intro m
    unfold mergeStep
    rfl
  constructor
  · unfold merge_and_deduplicate
    rw [foldl_batches_eq, foldl_batches_eq]
    have hin : ∀ mid : List Item,
        inputRecords (rls1 ++ [.list mid] ++ rls2) =
          inputRecords rls1 ++ (mid ++ inputRecords rls2) := by
      intro mid
      simp [inputRecords, batchItems]
    rw [hin, hin]
    simp only [List.foldl_append, List.foldl_cons, hstep, hstep']
  · unfold merge_and_deduplicate
    rw [foldl_batches_eq, foldl_batches_eq]
    have h1 : inputRecords (rls1 ++ [.notAList] ++ rls2) =
        inputRecords rls1 ++ inputRecords rls2 := by
      simp [inputRecords, batchItems]
    have h2 : inputRecords (rls1 ++ rls2) =
        inputRecords rls1 ++ inputRecords rls2 := by
      simp [inputRecords]
    rw [h1, h2]

/-- C10 witness: a concrete falsy-id record (empty-string id) and a
non-list outer element. -/
theorem C10_witness :
    (⟨some (.pyStr ""), 7⟩ : Item).id = some (.pyStr "") ∧
    PyId.truthy (.pyStr "") = false ∧
    ((merge_and_deduplicate
        [.list [⟨some (.pyStr "a"), 0⟩],
         .list ([⟨some (.pyStr "b"), 1⟩] ++ (⟨some (.pyStr ""), 7⟩ : Item) :: [])] =
      merge_and_deduplicate
        [.list [⟨some (.pyStr "a"), 0⟩],
         .list ([⟨some (.pyStr "b"), 1⟩] ++
           ({ (⟨some (.pyStr ""), 7⟩ : Item) with id := none }) :: [])])
    ∧ (merge_and_deduplicate
        ([.list [⟨some (.pyStr "a"), 0⟩]] ++ [.notAList] ++ []) =
      merge_and_deduplicate ([.list [⟨some (.pyStr "a"), 0⟩]] ++ []))) := by
  refine ⟨rfl, by decide, ?_⟩
  exact C10_falsy_id_and_nonlist [.list [⟨some (.pyStr "a"), 0⟩]] []
    [⟨some (.pyStr "b"), 1⟩] [] ⟨some (.pyStr ""), 7⟩ (.pyStr "") rfl (by decide)

/-! Reduction helpers for the dispatcher. -/

theorem process_duty_eq (req : AssistantRequest) (env : Env)
    (hchip : ¬(req.chip_click = some "find"))
    (htext : ¬(pyStrip req.text = ""))
    (hintent : env.intent_result.intent = .GET_DUTIES)
    (hnotboth : ¬(cityEmpty (env.intent_result.data.getD ⟨none, none⟩).from_city = true ∧
        cityEmpty (env.intent_result.data.getD ⟨none, none⟩).to_city = true)) :
    _process_intent req env =
      dutyFlow req env (sessionIdOf req env) env.intent_result
        (env.intent_result.data.getD ⟨none, none⟩) := by
  simp only [_process_intent]
  rw [if_neg hchip, if_neg htext,
      if_neg (fun h => hnotboth ⟨h.2.1, h.2.2⟩), if_pos hintent]

theorem pickupGate_reject (g : String → Option (Int × Int) × Option String)
    (did : String) (p : String) (dc : Option String) (c : String)
    (hp : ¬(p = "")) (hc : (g p).2 = some c) (hcin : c ≠ "IN") :
    pickupGate g did (some p) dc = .reject ⟨did, some p, dc, false, 0, 0⟩ := by
  simp [pickupGate, hp, hc, hcin]

theorem pickupGate_failopen (g : String → Option (Int × Int) × Option String)
    (did : String) (p : String) (dc : Option String)
    (hp : ¬(p = "")) (hnone : (g p).2 = none) :
    pickupGate g did (some p) dc = .proceed none false := by
  simp [pickupGate, hp, hnone]

theorem pickupGate_proceed_exists (g : String → Option (Int × Int) × Option String)
    (did : String) (pc dc : Option String)
    (h : ∀ p, pc = some p → ¬(p = "") →
      (g p).2 = none ∨ (g p).2 = some "IN") :
    ∃ cc ug, pickupGate g did pc dc = .proceed cc ug := by
  cases pc with
  | none => exact ⟨none, false, rfl⟩
  | some p =>
    by_cases hp : p = ""
    · exact ⟨none, false, by simp [pickupGate, hp]⟩
    · rcases h p rfl hp with hnone | hin
      · exact ⟨none, false, by simp [pickupGate, hp, hnone]⟩
      · cases hcc : (g p).1 with
        | none => exact ⟨none, false, by simp [pickupGate, hp, hin, hcc]⟩
        | some cc => exact ⟨some cc, true, by simp [pickupGate, hp, hin, hcc]⟩

theorem dropGate_none (g : String → Option (Int × Int) × Option String)
    (did : String) (pc dc : Option String) (ug : Bool)
    (h : ∀ d, dc = some d → ¬(d = "") →
      (g d).2 = none ∨ (g d).2 = some "IN") :
    dropGate g did pc dc ug = none := by
  cases dc with
  | none => rfl
  | some d =>
    by_cases hd : d = ""
    · simp [dropGate, hd]
    · rcases h d rfl hd with hnone | hin
      · simp [dropGate, hd, hnone]
      · simp [dropGate, hd, hin]

theorem dropGate_reject (g : String → Option (Int × Int) × Option String)
    (did : String) (pc : Option String) (d : String) (ug : Bool) (c : String)
    (hd : ¬(d = "")) (hc : (g d).2 = some c) (hcin : c ≠ "IN") :
    dropGate g did pc (some d) ug = some ⟨did, pc, some d, ug, 0, 0⟩ := by
  simp [dropGate, hd, hc, hcin]

theorem dutyFlow_reject (req : AssistantRequest) (env : Env) (sid : String)
    (ir : IntentResult) (ep : ExtractedParams) (ev : LogSearchEvent)
    (hg : pickupGate env.geocode req.driver_id ep.from_city ep.to_city = .reject ev) :
    dutyFlow req env sid ir ep =
      { response := indiaOnlyResponse env.config sid, tts_text := "",
        searches := [], analytics := [ev] } := by
  simp only [dutyFlow]
  rw [hg]

theorem dutyFlow_dropReject (req : AssistantRequest) (env : Env) (sid : String)
    (ir : IntentResult) (ep : ExtractedParams) (cc : Option (Int × Int))
    (ug : Bool) (ev : LogSearchEvent)
    (hg : pickupGate env.geocode req.driver_id ep.from_city ep.to_city = .proceed cc ug)
    (hd : dropGate env.geocode req.driver_id ep.from_city ep.to_city ug = some ev) :
    dutyFlow req env sid ir ep =
      { response := indiaOnlyResponse env.config sid, tts_text := "",
        searches := [], analytics := [ev] } := by
  simp only [dutyFlow]
  rw [hg]
  simp only []
  rw [hd]

theorem dutyFlow_textOnly (req : AssistantRequest) (env : Env) (sid : String)
    (ir : IntentResult) (ep : ExtractedParams)
    (hg : pickupGate env.geocode req.driver_id ep.from_city ep.to_city = .proceed none false)
    (hd : dropGate env.geocode req.driver_id ep.from_city ep.to_city false = none) :
    dutyFlow req env sid ir ep =
      (if (gatherResults false env.search).1.length = 0 ∧
          (gatherResults false env.search).2.length = 0 then
        { response := noDutyResponse env.config sid, tts_text := "",
          searches := [.tripsText ep.from_city ep.to_city,
            .leadsText ep.from_city ep.to_city],
          analytics := [⟨req.driver_id, ep.from_city, ep.to_city, false, 0, 0⟩] }
      else
        { response :=
            { session_id := sid, success := true, intent := ir.intent,
              ui_action := ir.ui_action, response_text := "",
              query := some ⟨ep.from_city, ep.to_city, false⟩,
              counts := some ⟨(gatherResults false env.search).1.length,
                (gatherResults false env.search).2.length⟩,
              data := some (.duties (gatherResults false env.search).1
                (gatherResults false env.search).2),
              audio_cached := false, cache_key := "",
              audio_url := select env.config ir.intent req.interaction_count
                req.is_home },
          tts_text := ir.response_text,
          searches := [.tripsText ep.from_city ep.to_city,
            .leadsText ep.from_city ep.to_city],
          analytics := [⟨req.driver_id, ep.from_city, ep.to_city, false,
            (gatherResults false env.search).1.length,
            (gatherResults false env.search).2.length⟩] }) := by
  simp only [dutyFlow]
  rw [hg]
  simp only []
  rw [hd]
  simp only [buildSearchCalls, Option.isSome, List.cons_append, List.nil_append]

/-- C2: a duty-search request whose provided origin or destination geocodes
to a country other than "IN" is short-circuited to the terminal end intent
with the india_only asset, no data, no search invocation, and a single
scheduled analytics event with zero trip and lead counts. -/
theorem C2_region_gate_rejects (req : AssistantRequest) (env : Env)
    (ep : ExtractedParams)
    (hep : env.intent_result.data.getD ⟨none, none⟩ = ep)
    (hchip : ¬(req.chip_click = some "find"))
    (htext : ¬(pyStrip req.text = ""))
    (hintent : env.intent_result.intent = .GET_DUTIES)
    (hnotboth : ¬(cityEmpty ep.from_city = true ∧ cityEmpty ep.to_city = true))
    (hreject :
      (∃ p c, ep.from_city = some p ∧ ¬(p = "") ∧
        (env.geocode p).2 = some c ∧ c ≠ "IN")
      ∨ ((∀ p, ep.from_city = some p → ¬(p = "") →
            (env.geocode p).2 = none ∨ (env.geocode p).2 = some "IN")
        ∧ ∃ d c, ep.to_city = some d ∧ ¬(d = "") ∧
            (env.geocode d).2 = some c ∧ c ≠ "IN")) :
    (_process_intent req env).response.intent = .END
    ∧ (_process_intent req env).response.ui_action = .SHOW_END
    ∧ (_process_intent req env).response.audio_url =
        get_url_direct env.config "india_only"
    ∧ (_process_intent req env).response.data = none
    ∧ (_process_intent req env).searches = []
    ∧ ∃ ev, (_process_intent req env).analytics = [ev]
        ∧ ev.trips_count = 0 ∧ ev.leads_count = 0 := by
  have hmain : _process_intent req env =
      dutyFlow req env (sessionIdOf req env) env.intent_result ep := by
    rw [process_duty_eq req env hchip htext hintent (by rw [hep]; exact hnotboth),
      hep]
  rcases hreject with ⟨p, c, hfc, hp, hc, hcin⟩ | ⟨hok, d, c, htc, hd, hc, hcin⟩
  · have hg : pickupGate env.geocode req.driver_id ep.from_city ep.to_city =
        .reject ⟨req.driver_id, ep.from_city, ep.to_city, false, 0, 0⟩ := by
      rw [hfc]
      exact hfc ▸ pickupGate_reject env.geocode req.driver_id p ep.to_city c hp hc hcin
    rw [hmain, dutyFlow_reject req env _ _ _ _ hg]
    exact ⟨rfl, rfl, rfl, rfl, rfl, _, rfl, rfl, rfl⟩
  · obtain ⟨cc, ug, hg⟩ :=
      pickupGate_proceed_exists env.geocode req.driver_id ep.from_city ep.to_city hok
    have hd' : dropGate env.geocode req.driver_id ep.from_city ep.to_city ug =
        some ⟨req.driver_id, ep.from_city, ep.to_city, ug, 0, 0⟩ := by
      rw [htc]
      exact dropGate_reject env.geocode req.driver_id ep.from_city d ug c hd hc hcin
    rw [hmain, dutyFlow_dropReject req env _ _ _ cc ug _ hg hd']
    exact ⟨rfl, rfl, rfl, rfl, rfl, _, rfl, rfl, rfl⟩

/-- C3: a duty-search classification with both extracted cities missing or
blank is overridden to the entry intent with its greeting asset; no search
runs and no analytics event is scheduled. -/
theorem C3_entry_fallback (req : AssistantRequest) (env : Env)
    (ep : ExtractedParams)
    (hep : env.intent_result.data.getD ⟨none, none⟩ = ep)
    (hchip : ¬(req.chip_click = some "find"))
    (htext : ¬(pyStrip req.text = ""))
    (hintent : env.intent_result.intent = .GET_DUTIES)
    (hfrom : cityEmpty ep.from_city = true)
    (hto : cityEmpty ep.to_city = true) :
    _process_intent req env =
      { response := entryResponse env.config req (sessionIdOf req env),
        tts_text := "", searches := [], analytics := [] } := by
  simp only [_process_intent]
  rw [if_neg hchip, if_neg htext,
    if_pos ⟨hintent, by rw [hep]; exact hfrom, by rw [hep]; exact hto⟩]

/-- C3 witness. -/
theorem C3_witness :
    (let req : AssistantRequest :=
      ⟨"duty chahiye", "d1", some "s1", some 2, true, none⟩
     let env : Env :=
      ⟨⟨.GET_DUTIES, "looking", .SHOW_DUTIES_LIST, some ⟨some " ", none⟩⟩,
        fun _ => (none, none), ⟨.ok [], .ok [], .ok [], .ok []⟩,
        [("entry", some "greet.mp3")], "u1"⟩
     env.intent_result.data.getD ⟨none, none⟩ = ⟨some " ", none⟩
     ∧ ¬(req.chip_click = some "find")
     ∧ ¬(pyStrip req.text = "")
     ∧ env.intent_result.intent = .GET_DUTIES
     ∧ cityEmpty (some " ") = true
     ∧ cityEmpty (none : Option String) = true
     ∧ _process_intent req env =
        { response := entryResponse env.config req (sessionIdOf req env),
          tts_text := "", searches := [], analytics := [] }) := by
  refine ⟨rfl, by decide, by decide, rfl, by decide, rfl, ?_⟩
  exact C3_entry_fallback _ _ ⟨some " ", none⟩ rfl (by decide) (by decide) rfl
    (by decide) rfl

/-- C5: a duty-search request whose origin fails to geocode (no country
code) is not rejected: the geo-mode tasks are skipped, both text searches
still run on the extracted cities, and whenever the merged text results are
non-empty the response carries the duty intent with that non-empty data. -/
theorem C5_fail_open_geocoding (req : AssistantRequest) (env : Env)
    (ep : ExtractedParams) (p : String)
    (hep : env.intent_result.data.getD ⟨none, none⟩ = ep)
    (hchip : ¬(req.chip_click = some "find"))
    (htext : ¬(pyStrip req.text = ""))
    (hintent : env.intent_result.intent = .GET_DUTIES)
    (hfrom : ep.from_city = some p) (hp : ¬(p = ""))
    (hnotboth : ¬(cityEmpty ep.from_city = true ∧ cityEmpty ep.to_city = true))
    (hgeo : (env.geocode p).2 = none)
    (hdrop : ∀ d, ep.to_city = some d → ¬(d = "") →
        (env.geocode d).2 = none ∨ (env.geocode d).2 = some "IN") :
    ((_process_intent req env).searches =
      [.tripsText ep.from_city ep.to_city, .leadsText ep.from_city ep.to_city])
    ∧ (((gatherResults false env.search).1 ≠ [] ∨
          (gatherResults false env.search).2 ≠ []) →
        (_process_intent req env).response.intent = .GET_DUTIES
        ∧ (_process_intent req env).response.data =
            some (.duties (gatherResults false env.search).1
              (gatherResults false env.search).2)
        ∧ (_process_intent req env).response.counts =
            some ⟨(gatherResults false env.search).1.length,
              (gatherResults false env.search).2.length⟩) := by
  have hmain : _process_intent req env =
      dutyFlow req env (sessionIdOf req env) env.intent_result ep := by
    rw [process_duty_eq req env hchip htext hintent (by rw [hep]; exact hnotboth),
      hep]
  have hg : pickupGate env.geocode req.driver_id ep.from_city ep.to_city =
      .proceed none false := by
    rw [hfrom]
    exact pickupGate_failopen env.geocode req.driver_id p ep.to_city hp hgeo
  have hd : dropGate env.geocode req.driver_id ep.from_city ep.to_city false = none :=
    dropGate_none env.geocode req.driver_id ep.from_city ep.to_city false hdrop
  rw [hmain, dutyFlow_textOnly req env _ _ _ hg hd]
  by_cases hres : (gatherResults false env.search).1.length = 0 ∧
      (gatherResults false env.search).2.length = 0
  · rw [if_pos hres]
    refine ⟨rfl, fun hne => ?_⟩
    exfalso
    rcases hne with h | h
    · exact h (List.length_eq_zero.1 hres.1)
    · exact h (List.length_eq_zero.1 hres.2)
  · rw [if_neg hres]
    exact ⟨rfl, fun _ => ⟨hintent, rfl, rfl⟩⟩

/-- C2 witness: an origin geocoding to the US. -/
theorem C2_witness :
    (let req : AssistantRequest :=
      ⟨"duty from new york", "d1", none, none, true, none⟩
     let env : Env :=
      ⟨⟨.GET_DUTIES, "resp", .SHOW_DUTIES_LIST, some ⟨some "New York", none⟩⟩,
        fun _ => (some (40, -74), some "US"), ⟨.ok [], .ok [], .ok [], .ok []⟩,
        [("india_only", some "india.mp3")], "u"⟩
     (_process_intent req env).response.intent = .END
     ∧ (_process_intent req env).response.ui_action = .SHOW_END
     ∧ (_process_intent req env).response.audio_url =
         get_url_direct env.config "india_only"
     ∧ (_process_intent req env).response.data = none
     ∧ (_process_intent req env).searches = []
     ∧ ∃ ev, (_process_intent req env).analytics = [ev]
         ∧ ev.trips_count = 0 ∧ ev.leads_count = 0) :=
  C2_region_gate_rejects _ _ ⟨some "New York", none⟩ rfl (by decide) (by decide)
    rfl (by decide)
    (Or.inl ⟨"New York", "US", rfl, by decide, rfl, by decide⟩)

/-- C5 witness: an origin that does not geocode, with a non-empty text
search result surfacing in the response. -/
theorem C5_witness :
    (let env : Env :=
      ⟨⟨.GET_DUTIES, "resp", .SHOW_DUTIES_LIST, some ⟨some "Kamathivada", none⟩⟩,
        fun _ => (none, none),
        ⟨.ok [⟨some (.pyStr "t1"), 0⟩], .ok [], .ok [], .ok []⟩,
        [], "u"⟩
     let req : AssistantRequest :=
      ⟨"duty from kamathivada", "d1", none, none, true, none⟩
     ((_process_intent req env).searches =
        [.tripsText (some "Kamathivada") none, .leadsText (some "Kamathivada") none])
     ∧ (gatherResults false env.search).1 ≠ []
     ∧ (_process_intent req env).response.intent = .GET_DUTIES
     ∧ (_process_intent req env).response.data =
        some (.duties (gatherResults false env.search).1
          (gatherResults false env.search).2)) := by
  have h := C5_fail_open_geocoding
    ⟨"duty from kamathivada", "d1", none, none, true, none⟩
    ⟨⟨.GET_DUTIES, "resp", .SHOW_DUTIES_LIST, some ⟨some "Kamathivada", none⟩⟩,
      fun _ => (none, none),
      ⟨.ok [⟨some (.pyStr "t1"), 0⟩], .ok [], .ok [], .ok []⟩,
      [], "u"⟩
    ⟨some "Kamathivada", none⟩ "Kamathivada" rfl (by decide) (by decide) rfl rfl
    (by decide) (by decide) rfl (fun d hd => by cases hd)
  have hne : (gatherResults false
      (⟨⟨.GET_DUTIES, "resp", .SHOW_DUTIES_LIST, some ⟨some "Kamathivada", none⟩⟩,
        fun _ => (none, none),
        ⟨.ok [⟨some (.pyStr "t1"), 0⟩], .ok [], .ok [], .ok []⟩,
        [], "u"⟩ : Env).search).1 ≠ [] := by decide
  obtain ⟨hsearch, hcond⟩ := h
  obtain ⟨hintent, hdata, _⟩ := hcond (Or.inl hne)
  exact ⟨hsearch, hne, hintent, hdata⟩

/-- C4: when one of the four search tasks raises and the other three
succeed, the gathered result treats the failed task as an empty batch: it
equals the gather over the same environment with the failure replaced by an
empty success, each record kind is the merge of its text and geo batches
with the failed one empty, and the dispatcher response is unchanged by the
substitution — the aggregate never fails. -/
theorem C4_partial_failure_tolerance (se : SearchEnv) (i : TaskId)
    (hfail : se.task i = .error ())
    (hok : ∀ j, j ≠ i → ∃ l, se.task j = .ok l) :
    (∀ hasGeo, gatherResults hasGeo se = gatherResults hasGeo (se.setTask i (.ok [])))
    ∧ ((gatherResults true se).1 = merge_and_deduplicate
        [.list (okOrEmpty ((se.setTask i (.ok [])).trips_text)),
         .list (okOrEmpty ((se.setTask i (.ok [])).trips_geo))])
    ∧ ((gatherResults true se).2 = merge_and_deduplicate
        [.list (okOrEmpty ((se.setTask i (.ok [])).leads_text)),
         .list (okOrEmpty ((se.setTask i (.ok [])).leads_geo))])
    ∧ (∀ req env, env.search = se →
        _process_intent req env =
          _process_intent req { env with search := se.setTask i (.ok []) }) := by
  have hsub : ∀ hasGeo, gatherResults hasGeo se =
      gatherResults hasGeo (se.setTask i (.ok [])) := by
    intro b
    cases i <;>
      simp_all [gatherResults, SearchEnv.setTask, SearchEnv.task, okOrEmpty]
  refine ⟨hsub, ?_, ?_, ?_⟩
  · rw [hsub true]
    simp [gatherResults]
  · rw [hsub true]
    simp [gatherResults]
  · intro req env henv
    have hg : ∀ b, gatherResults b env.search =
        gatherResults b (se.setTask i (.ok [])) := by
      rw [henv]
      exact hsub
    simp only [_process_intent, dutyFlow, sessionIdOf, hg]

/-- C4 witness: the geo trips task raises, the three others succeed. -/
theorem C4_witness :
    (let se : SearchEnv := ⟨.ok [⟨some (.pyStr "t"), 0⟩], .ok [], .error (), .ok []⟩
     (se.task .tripsGeo = .error ()
      ∧ ∀ j, j ≠ TaskId.tripsGeo → ∃ l, se.task j = .ok l)
     ∧ ((∀ hasGeo, gatherResults hasGeo se =
          gatherResults hasGeo (se.setTask .tripsGeo (.ok [])))
       ∧ ((gatherResults true se).1 = merge_and_deduplicate
          [.list (okOrEmpty ((se.setTask .tripsGeo (.ok [])).trips_text)),
           .list (okOrEmpty ((se.setTask .tripsGeo (.ok [])).trips_geo))])
       ∧ ((gatherResults true se).2 = merge_and_deduplicate
          [.list (okOrEmpty ((se.setTask .tripsGeo (.ok [])).leads_text)),
           .list (okOrEmpty ((se.setTask .tripsGeo (.ok [])).leads_geo))])
       ∧ (∀ req env, env.search = se →
          _process_intent req env =
            _process_intent req { env with search := se.setTask .tripsGeo (.ok []) }))) := by
  refine ⟨⟨rfl, ?_⟩, ?_⟩
  · intro j hj
    cases j with
    | tripsText => exact ⟨[⟨some (.pyStr "t"), 0⟩], rfl⟩
    | leadsText => exact ⟨[], rfl⟩
    | tripsGeo => exact absurd rfl hj
    | leadsGeo => exact ⟨[], rfl⟩
  · refine C4_partial_failure_tolerance _ .tripsGeo rfl ?_
    intro j hj
    cases j with
    | tripsText => exact ⟨[⟨some (.pyStr "t"), 0⟩], rfl⟩
    | leadsText => exact ⟨[], rfl⟩
    | tripsGeo => exact absurd rfl hj
    | leadsGeo => exact ⟨[], rfl⟩

end Raahi
